import Mathlib

/-!
Formal model of the POTA (Please Over The Air) update-check library.

The definitions below are a shallow embedding of the C++ sources
(src/POTA.cpp, src/POTA.h).  C byte strings are modelled as Lean
strings restricted to ASCII, so that string length coincides with the
byte length `strlen` computes; machine words are `Nat` reduced modulo
2^32 where the C code relies on 32-bit wraparound.  The mbedTLS /
BearSSL HMAC-SHA256 primitive called by generateServerToken is modelled
by an executable FIPS 180-4 / FIPS 198-1 implementation over byte
lists, validated against standard test vectors in the theorems section.
I/O performed through the WiFiClientSecure transport and the
ArduinoJson codec is abstracted into explicit environment records; an
event trace records which externally visible transport actions
(sending the request, invoking the JSON parser, closing the channel)
each execution path performs.
-/

set_option maxHeartbeats 4000000
set_option maxRecDepth 100000

/-- Truncation to a 32-bit machine word. -/
def w32 (n : Nat) : Nat := n % 4294967296

/-- Right rotation of a 32-bit word. -/
def rotr (x n : Nat) : Nat := w32 ((x >>> n) ||| (x <<< (32 - n)))

/-- Bitwise complement of a 32-bit word. -/
def bnot32 (x : Nat) : Nat := x ^^^ 4294967295

/-- SHA-256 choice function. -/
def ch (x y z : Nat) : Nat := (x &&& y) ^^^ (bnot32 x &&& z)

/-- SHA-256 majority function. -/
def maj (x y z : Nat) : Nat := (x &&& y) ^^^ (x &&& z) ^^^ (y &&& z)

/-- SHA-256 big sigma 0. -/
def bsig0 (x : Nat) : Nat := rotr x 2 ^^^ rotr x 13 ^^^ rotr x 22

/-- SHA-256 big sigma 1. -/
def bsig1 (x : Nat) : Nat := rotr x 6 ^^^ rotr x 11 ^^^ rotr x 25

/-- SHA-256 small sigma 0. -/
def ssig0 (x : Nat) : Nat := rotr x 7 ^^^ rotr x 18 ^^^ (x >>> 3)

/-- SHA-256 small sigma 1. -/
def ssig1 (x : Nat) : Nat := rotr x 17 ^^^ rotr x 19 ^^^ (x >>> 10)

/-- The 64 SHA-256 round constants. -/
def sha256K : List Nat :=
  [1116352408, 1899447441, 3049323471, 3921009573, 961987163, 1508970993,
   2453635748, 2870763221, 3624381080, 310598401, 607225278, 1426881987,
   1925078388, 2162078206, 2614888103, 3248222580, 3835390401, 4022224774,
   264347078, 604807628, 770255983, 1249150122, 1555081692, 1996064986,
   2554220882, 2821834349, 2952996808, 3210313671, 3336571891, 3584528711,
   113926993, 338241895, 666307205, 773529912, 1294757372, 1396182291,
   1695183700, 1986661051, 2177026350, 2456956037, 2730485921, 2820302411,
   3259730800, 3345764771, 3516065817, 3600352804, 4094571909, 275423344,
   430227734, 506948616, 659060556, 883997877, 958139571, 1322822218,
   1537002063, 1747873779, 1955562222, 2024104815, 2227730452, 2361852424,
   2428436474, 2756734187, 3204031479, 3329325298]

/-- The eight 32-bit words of a SHA-256 hash state. -/
structure Hash8 where
  ha : Nat
  hb : Nat
  hc : Nat
  hd : Nat
  he : Nat
  hf : Nat
  hg : Nat
  hh : Nat
deriving DecidableEq

/-- The SHA-256 initial hash value. -/
def initH : Hash8 :=
  ⟨1779033703, 3144134277, 1013904242, 2773480762,
   1359893119, 2600822924, 528734635, 1541459225⟩

/-- One round of the SHA-256 compression function. -/
def compressRound (st : Hash8) (k w : Nat) : Hash8 :=
  let t1 := w32 (st.hh + bsig1 st.he + ch st.he st.hf st.hg + k + w)
  let t2 := w32 (bsig0 st.ha + maj st.ha st.hb st.hc)
  ⟨w32 (t1 + t2), st.ha, st.hb, st.hc, w32 (st.hd + t1), st.he, st.hf, st.hg⟩

/-- Extension of the 16 words of one block to the 64-entry message schedule. -/
def sha256Schedule (ws : List Nat) : List Nat :=
  (List.range 48).foldl
    (fun acc _ =>
      let n := acc.length
      acc ++ [w32 (ssig1 (acc.getD (n - 2) 0) + acc.getD (n - 7) 0 +
                   ssig0 (acc.getD (n - 15) 0) + acc.getD (n - 16) 0)])
    ws

/-- SHA-256 compression of one 16-word block into the running hash state. -/
def compressBlock (st : Hash8) (block : List Nat) : Hash8 :=
  let ws := sha256Schedule block
  let e := (List.zip sha256K ws).foldl (fun s kw => compressRound s kw.1 kw.2) st
  ⟨w32 (st.ha + e.ha), w32 (st.hb + e.hb), w32 (st.hc + e.hc), w32 (st.hd + e.hd),
   w32 (st.he + e.he), w32 (st.hf + e.hf), w32 (st.hg + e.hg), w32 (st.hh + e.hh)⟩

/-- Big-endian packing of bytes into 32-bit words, four at a time. -/
def bytesToWords : List Nat → List Nat
  | b0 :: b1 :: b2 :: b3 :: rest =>
      ((b0 <<< 24) ||| (b1 <<< 16) ||| (b2 <<< 8) ||| b3) :: bytesToWords rest
  | _ => []

/-- Splitting a word list into 16-word blocks, with an explicit fuel bound. -/
def toBlocksAux : Nat → List Nat → List (List Nat)
  | 0, _ => []
  | _, [] => []
  | fuel + 1, ws => ws.take 16 :: toBlocksAux fuel (ws.drop 16)

/-- FIPS 180-4 message padding: a 0x80 byte, zeros, and the 64-bit bit length. -/
def padMsg (msg : List Nat) : List Nat :=
  let len := msg.length
  let zeros := (64 + 55 - (len % 64)) % 64
  let bits := 8 * len
  msg ++ 0x80 :: List.replicate zeros 0 ++
    [(bits >>> 56) &&& 255, (bits >>> 48) &&& 255, (bits >>> 40) &&& 255, (bits >>> 32) &&& 255,
     (bits >>> 24) &&& 255, (bits >>> 16) &&& 255, (bits >>> 8) &&& 255, bits &&& 255]

/-- Big-endian byte decomposition of a 32-bit word. -/
def wordBytes (w : Nat) : List Nat :=
  [(w >>> 24) &&& 255, (w >>> 16) &&& 255, (w >>> 8) &&& 255, w &&& 255]

/-- SHA-256 of a byte list, as its 32 digest bytes. -/
def sha256 (msg : List Nat) : List Nat :=
  let ws := bytesToWords (padMsg msg)
  let blocks := toBlocksAux ws.length ws
  let fin := blocks.foldl compressBlock initH
  wordBytes fin.ha ++ wordBytes fin.hb ++ wordBytes fin.hc ++ wordBytes fin.hd ++
  wordBytes fin.he ++ wordBytes fin.hf ++ wordBytes fin.hg ++ wordBytes fin.hh

/-- HMAC-SHA256 (FIPS 198-1) of a message under a key, as its 32 digest bytes.
This models the mbedTLS and BearSSL HMAC primitives used in POTA.cpp. -/
def hmacSha256 (key msg : List Nat) : List Nat :=
  let k0 := if 64 < key.length then sha256 key else key
  let kp := k0 ++ List.replicate (64 - k0.length) 0
  let ip := kp.map (fun b => b ^^^ 0x36)
  let op := kp.map (fun b => b ^^^ 0x5c)
  sha256 (op ++ sha256 (ip ++ msg))

/-- The bytes of an ASCII string, matching the byte view a C char buffer has. -/
def strBytes (s : String) : List Nat := s.data.map Char.toNat

/-- Length of a C string; for the ASCII strings modelled here this is the
value strlen returns and the byte count snprintf reports. -/
def strlen (s : String) : Nat := s.length

/-- The lookup table of POTA.cpp line 211: hexChars = "0123456789abcdef". -/
def hexChars : List Char := "0123456789abcdef".data

/-- One hex digit: hexChars indexed by a masked nibble, as in POTA.cpp 213-214. -/
def hexDigit (n : Nat) : Char := hexChars.getD (n &&& 15) ('0')

/-- Hex encoding of a byte list, high nibble first, as in POTA.cpp 212-215. -/
def hexEncodeList : List Nat → List Char
  | [] => []
  | b :: bs => hexDigit (b >>> 4) :: hexDigit b :: hexEncodeList bs

/-- Hex encoding of a byte list as a string. -/
def hexEncode (bs : List Nat) : String := String.mk (hexEncodeList bs)

/-- The POTAError enumeration of POTA.h. -/
inductive POTAError where
  | SUCCESS
  | PARAMETER_INVALID_SSID
  | PARAMETER_INVALID_PASSWORD
  | PARAMETER_INVALID_DEVICETYPE
  | PARAMETER_INVALID_FWVERSION
  | PARAMETER_INVALID_AUTHTOKEN
  | PARAMETER_INVALID_SECRET
  | PARAMETER_INVALID_OUTPUT
  | PARAMETER_INVALID_OTA_URL
  | WIFI_CONNECT_FAILED
  | CLIENT_NOT_INITIALIZED
  | CONNECTION_FAILED
  | JSON_PARSE_FAILED
  | TOKEN_GENERATION_FAILED
  | TOKEN_MISMATCH
  | NO_UPDATE_AVAILABLE
  | OTA_FAILED
  | OTA_DOWNLOAD_FAILED
  | OTA_DECOMPRESSION_FAILED
  | OTA_APPLY_FAILED
  | OTA_NOT_CAPABLE
  | OTA_BEGIN_FAILED
  | OTA_WIFI_FW_MISSING
  | PLATFORM_NOT_SUPPORTED
  | BUFFER_OVERFLOW_REQUEST
  | BUFFER_OVERFLOW_RESPONSE
  | CERTIFICATE_MISSING
  | SERVER_ERROR_4XX
deriving DecidableEq

/-- The fixed API host of POTA.cpp line 40. -/
def API_HOST : String := "www.pleasedontcode.com"

/-- The fixed protocol version of POTA.cpp line 39. -/
def POTA_PROTOCOL_VERSION : String := "01.00"

/-- The colon-joined message snprintf builds in POTA.cpp lines 181-188; a
null C string argument contributes the empty string. -/
def serverTokenMessage (update : Bool)
    (version url checksum protocolVersion notes timestamp : Option String) : String :=
  (if update then "true" else "false") ++ ":" ++ version.getD "" ++ ":" ++ url.getD "" ++ ":" ++
  checksum.getD "" ++ ":" ++ protocolVersion.getD "" ++ ":" ++ notes.getD "" ++ ":" ++
  timestamp.getD ""

/-- POTA::generateServerToken (POTA.cpp 167-218).  Null pointer arguments are
modelled as none.  The result is the error code together with the token the
function wrote into outToken, when it wrote one.  The 512-byte message
buffer bound and the 65-byte output bound are the checks of lines 177-189. -/
def generateServerToken (update : Bool)
    (version url checksum protocolVersion notes timestamp secret : Option String)
    (outTokenSize : Nat) : POTAError × Option String :=
  match secret with
  | none => (POTAError.PARAMETER_INVALID_SECRET, none)
  | some sec =>
    if outTokenSize < 65 then (POTAError.PARAMETER_INVALID_OUTPUT, none)
    else
      let message := serverTokenMessage update version url checksum protocolVersion notes timestamp
      if strlen message ≥ 512 then (POTAError.TOKEN_GENERATION_FAILED, none)
      else (POTAError.SUCCESS, some (hexEncode (hmacSha256 (strBytes sec) (strBytes message))))

/-- Definition written from the words of the spec (section 3,
CanonicalMessage): the colon-joined fields in the fixed order
update rendered "true" or "false", version, url, checksum, protocolVersion,
notes, timestamp rendered as its decimal string. -/
def canonicalMessageSpec (update : Bool)
    (version url checksum protocolVersion notes : String) (timestamp : Int) : String :=
  (if update then "true" else "false") ++ ":" ++ version ++ ":" ++ url ++ ":" ++
  checksum ++ ":" ++ protocolVersion ++ ":" ++ notes ++ ":" ++ toString timestamp

/-- JSON values as far as the response handling distinguishes them; jother
stands for any other shape (floats, arrays, nested objects). -/
inductive JVal where
  | jnull
  | jbool (b : Bool)
  | jint (n : Int)
  | jstr (s : String)
  | jother
deriving DecidableEq

/-- A parsed JSON object: an association list of fields. -/
abbrev JDoc := List (String × JVal)

/-- Field lookup in a parsed document. -/
def jget (doc : JDoc) (key : String) : Option JVal :=
  (doc.find? (fun p => p.fst == key)).map Prod.snd

/-- Modelled from the spec (sections 3 and 6, the Codec collaborator whose
source is the external ArduinoJson library): the typed-default field
accessor doc[key] | default for booleans — the value when the field holds a
boolean, the default otherwise. -/
def jboolOr (doc : JDoc) (key : String) (d : Bool) : Bool :=
  match jget doc key with
  | some (JVal.jbool b) => b
  | _ => d

/-- Modelled from the spec (sections 3 and 6): the typed-default accessor
doc[key] | default for strings. -/
def jstrOr (doc : JDoc) (key : String) (d : String) : String :=
  match jget doc key with
  | some (JVal.jstr s) => s
  | _ => d

/-- Modelled from the spec (sections 3 and 6): the typed-default accessor
doc[key] | default for integers. -/
def jintOr (doc : JDoc) (key : String) (d : Int) : Int :=
  match jget doc key with
  | some (JVal.jint n) => n
  | _ => d

/-- Whether an optional JSON value is absent or not a boolean. -/
def noBoolAt (doc : JDoc) (key : String) : Bool :=
  match jget doc key with
  | some (JVal.jbool _) => false
  | _ => true

/-- Whether an optional JSON value is absent or not a string. -/
def noStrAt (doc : JDoc) (key : String) : Bool :=
  match jget doc key with
  | some (JVal.jstr _) => false
  | _ => true

/-- Whether an optional JSON value is absent or not an integer. -/
def noIntAt (doc : JDoc) (key : String) : Bool :=
  match jget doc key with
  | some (JVal.jint _) => false
  | _ => true

/-- The typed response fields checkOTAUpdate extracts (POTA.cpp 314-323). -/
structure RespFields where
  update : Bool
  url : String
  version : String
  checksum : String
  protocolVersion : String
  notes : String
  serverToken : String
  errorMsg : String
  timestampValue : Int
deriving DecidableEq

/-- The field extraction of POTA.cpp lines 314-323: each field is read with
the typed-default accessor, defaulting booleans to false, strings to the
empty string and the timestamp to 0. -/
def extractFields (doc : JDoc) : RespFields :=
  { update := jboolOr doc "update" false
    url := jstrOr doc "url" ""
    version := jstrOr doc "version" ""
    checksum := jstrOr doc "checksum" ""
    protocolVersion := jstrOr doc "protocol_version" ""
    notes := jstrOr doc "notes" ""
    serverToken := jstrOr doc "server_token" ""
    errorMsg := jstrOr doc "error" ""
    timestampValue := jintOr doc "timestamp" 0 }

/-- The message generateServerToken canonicalizes for a parsed response,
with the timestamp rendered by snprintf %ld (POTA.cpp 327-328). -/
def coreMessage (f : RespFields) : String :=
  serverTokenMessage f.update (some f.version) (some f.url) (some f.checksum)
    (some f.protocolVersion) (some f.notes) (some (toString f.timestampValue))

/-- The expected token checkOTAUpdate recomputes for a parsed response. -/
def expectedTokenOf (secret : String) (f : RespFields) : String :=
  hexEncode (hmacSha256 (strBytes secret) (strBytes (coreMessage f)))

/-- The strncmp prefix test of POTA.cpp line 347: whether the first
strlen(p) bytes of s equal p, i.e. whether p is a prefix of s. -/
def strncmpPre (p s : String) : Bool := p.data.isPrefixOf s.data

/-- The bounded strncpy copy of POTA.cpp lines 352-353: at most n
characters of s, the destination then NUL-terminated. -/
def strncpyTake (s : String) (n : Nat) : String := String.mk (s.data.take n)

/-- The part of POTA::checkOTAUpdate after JSON parsing (POTA.cpp 314-358):
server-declared error check, token recomputation and comparison, and the
update decision.  Returns the error code and the contents of outOTAUrl,
which line 224 cleared to the empty string and which lines 352-353 fill,
truncated by strncpy to outOTAUrlSize - 1 characters, on the success path. -/
def checkCore (serverSecret : String) (f : RespFields) (outOTAUrlSize : Nat) :
    POTAError × String :=
  let timestampStr := toString f.timestampValue
  if strlen f.errorMsg > 0 then (POTAError.SERVER_ERROR_4XX, "")
  else
    match generateServerToken f.update (some f.version) (some f.url) (some f.checksum)
        (some f.protocolVersion) (some f.notes) (some timestampStr) (some serverSecret) 65 with
    | (e, none) => (e, "")
    | (_, some expectedToken) =>
      if expectedToken ≠ f.serverToken then (POTAError.TOKEN_MISMATCH, "")
      else if f.update && strncmpPre ("https://" ++ API_HOST) f.url then
        (POTAError.SUCCESS, strncpyTake f.url (outOTAUrlSize - 1))
      else (POTAError.NO_UPDATE_AVAILABLE, "")

/-- The configuration state a POTA object holds: the client pointer (here
just whether one is set) and the four bounded string fields. -/
structure POTAConfig where
  client : Bool
  deviceType : String
  firmwareVersion : String
  authToken : String
  serverSecret : String
deriving DecidableEq

/-- The environment one checkOTAUpdate call observes through its
collaborators: whether the TLS connect succeeds, the device identity
string, how many response-body bytes the transport delivers, and the
result the JSON codec produces for the received buffer (none for a
deserialization error). -/
structure CheckEnv where
  connectOk : Bool
  deviceId : String
  respLen : Nat
  respDoc : Option JDoc

/-- Externally visible transport events of one checkOTAUpdate call:
whether any request byte was written, whether the response buffer was
handed to the JSON parser, and whether stop() closed the channel. -/
structure CheckTrace where
  requestSent : Bool
  parseAttempted : Bool
  stopped : Bool
deriving DecidableEq

/-- The request body snprintf builds in POTA.cpp lines 248-260. -/
def requestBody (deviceId deviceType firmwareVersion authToken : String) : String :=
  "\x7b\"device_id\":\"" ++ deviceId ++ "\",\"device_type\":\"" ++ deviceType ++
  "\",\"firmware_version\":\"" ++ firmwareVersion ++ "\",\"protocol_version\":\"" ++
  POTA_PROTOCOL_VERSION ++ "\",\"auth_token\":\"" ++ authToken ++ "\"\x7d"

/-- The full result of one checkOTAUpdate call. -/
structure CheckResult where
  err : POTAError
  outOTAUrl : String
  trace : CheckTrace
deriving DecidableEq

/-- POTA::checkOTAUpdate (POTA.cpp 220-359).  The guards appear in source
order: client initialization and output buffer checks, connect, the
1024-byte request bound checked before any byte is sent, header skipping,
the capacity-minus-one response bound checked before parsing, the
unconditional stop() of lines 265, 296 and 302, JSON parsing, and the
post-parse logic of checkCore. -/
def checkOTAUpdate (cfg : POTAConfig) (env : CheckEnv) (outOTAUrlSize : Nat) : CheckResult :=
  if cfg.client = false then
    ⟨POTAError.CLIENT_NOT_INITIALIZED, "", ⟨false, false, false⟩⟩
  else if outOTAUrlSize = 0 then
    ⟨POTAError.PARAMETER_INVALID_OUTPUT, "", ⟨false, false, false⟩⟩
  else if env.connectOk = false then
    ⟨POTAError.CONNECTION_FAILED, "", ⟨false, false, false⟩⟩
  else
    let bodyLen := strlen (requestBody env.deviceId cfg.deviceType cfg.firmwareVersion cfg.authToken)
    if bodyLen ≥ 1024 then
      ⟨POTAError.BUFFER_OVERFLOW_REQUEST, "", ⟨false, false, true⟩⟩
    else
      let len := min env.respLen 1023
      if len ≥ 1023 then
        ⟨POTAError.BUFFER_OVERFLOW_RESPONSE, "", ⟨true, false, true⟩⟩
      else
        match env.respDoc with
        | none => ⟨POTAError.JSON_PARSE_FAILED, "", ⟨true, true, true⟩⟩
        | some doc =>
          let r := checkCore cfg.serverSecret (extractFields doc) outOTAUrlSize
          ⟨r.fst, r.snd, ⟨true, true, true⟩⟩

/-- The validation applied to each config argument in POTA.cpp 101-111:
rejected when the pointer is null, the string is empty, or its length
reaches the capacity of the destination buffer. -/
def argBad (arg : Option String) (cap : Nat) : Bool :=
  match arg with
  | none => true
  | some s => strlen s == 0 || decide (strlen s ≥ cap)

/-- POTA::beginClient (POTA.cpp 91-128): the four validation checks in
order, then the commit of the client pointer and the four fields, each
copied by strncpy bounded to one less than its capacity. -/
def beginClient (cfg : POTAConfig)
    (deviceType firmwareVersion authToken serverSecret : Option String) :
    POTAError × POTAConfig :=
  if argBad deviceType 32 then (POTAError.PARAMETER_INVALID_DEVICETYPE, cfg)
  else if argBad firmwareVersion 32 then (POTAError.PARAMETER_INVALID_FWVERSION, cfg)
  else if argBad authToken 64 then (POTAError.PARAMETER_INVALID_AUTHTOKEN, cfg)
  else if argBad serverSecret 65 then (POTAError.PARAMETER_INVALID_SECRET, cfg)
  else
    (POTAError.SUCCESS,
      { client := true
        deviceType := (deviceType.getD "").take 31
        firmwareVersion := (firmwareVersion.getD "").take 31
        authToken := (authToken.getD "").take 63
        serverSecret := (serverSecret.getD "").take 64 })

/-- Whether a Wi-Fi credential argument is null or empty (POTA.cpp 61-65). -/
def nullOrEmpty (arg : Option String) : Bool :=
  match arg with
  | none => true
  | some s => strlen s == 0

/-- What begin observes of the Wi-Fi collaborator: whether association
completes within the 30 second timeout. -/
structure WifiEnv where
  associates : Bool

/-- The result of one begin call: the error code, the resulting config
state, and whether WiFi.begin was invoked (network I/O attempted). -/
structure BeginResult where
  err : POTAError
  cfg : POTAConfig
  wifiAttempted : Bool
deriving DecidableEq

/-- POTA::begin (POTA.cpp 53-88) for a supported platform build: ssid and
password validation, then the Wi-Fi association of lines 68-76, then the
delegation to beginClient. -/
def begin (env : WifiEnv) (cfg : POTAConfig)
    (ssid password deviceType firmwareVersion authToken serverSecret : Option String) :
    BeginResult :=
  if nullOrEmpty ssid then ⟨POTAError.PARAMETER_INVALID_SSID, cfg, false⟩
  else if nullOrEmpty password then ⟨POTAError.PARAMETER_INVALID_PASSWORD, cfg, false⟩
  else if env.associates = false then ⟨POTAError.WIFI_CONNECT_FAILED, cfg, true⟩
  else
    let r := beginClient cfg deviceType firmwareVersion authToken serverSecret
    ⟨r.fst, r.snd, true⟩

/-- POTA::checkAndPerformOTA (POTA.cpp 156-164): the update check with a
256-byte URL buffer, then the platform updater dispatch, abstracted as a
function of the URL handed over. -/
def checkAndPerformOTA (cfg : POTAConfig) (env : CheckEnv)
    (performOTA : String → POTAError) : POTAError :=
  if cfg.client = false then POTAError.CLIENT_NOT_INITIALIZED
  else
    let r := checkOTAUpdate cfg env 256
    if r.err ≠ POTAError.SUCCESS then r.err else performOTA r.outOTAUrl

/-- Scenario fixture: the shared secret of the spec happy-path scenario. -/
def sampleSecret : String := "s3cr3t"

/-- Scenario fixture: the trusted firmware url of the happy-path scenario. -/
def sampleUrl : String := "https://www.pleasedontcode.com/fw.bin"

/-- Scenario fixture: the HMAC-SHA256 token of the happy-path scenario,
precomputed over the canonical message
true:1.1.0:https://www.pleasedontcode.com/fw.bin:deadbeef:01.00:fix:1000
under the secret s3cr3t. -/
def sampleTok : String := "6416ef0b4786d63c389155a4c3b60f4eaae3050fdeacc77b54e92a8c12840b56"

/-- Scenario fixture: the configuration committed by a successful
initialization in the happy-path scenario. -/
def sampleCfg : POTAConfig :=
  { client := true, deviceType := "sensor1", firmwareVersion := "1.0.0",
    authToken := "abc", serverSecret := sampleSecret }

/-- Fixture for claim C2: the happy-path response with the server_token
field missing, so the extraction defaults it to the empty string. -/
def c2doc : JDoc :=
  [("update", JVal.jbool true), ("url", JVal.jstr sampleUrl),
   ("version", JVal.jstr "1.1.0"), ("checksum", JVal.jstr "deadbeef"),
   ("protocol_version", JVal.jstr "01.00"), ("notes", JVal.jstr "fix"),
   ("timestamp", JVal.jint 1000)]

/-- Fixture for claim C2: the transport environment delivering c2doc. -/
def c2env : CheckEnv :=
  { connectOk := true, deviceId := "AA:BB:CC:DD:EE:FF", respLen := 200,
    respDoc := some c2doc }

/-- Fixture for claim C3: a trusted-prefix firmware url 331 characters
long, longer than the 256-byte url buffer of checkAndPerformOTA. -/
def c3url : String := "https://www.pleasedontcode.com/" ++ String.mk (List.replicate 300 ('a'))

/-- Fixture for claim C3: the HMAC-SHA256 token precomputed over the
canonical message of the long-url response under the secret s3cr3t. -/
def c3tok : String := "8b494fd4badccbb78e60035fcafe881846bfa622365822e3a5a45ce57da2e854"

/-- Fixture for claim C3: a fully verified update=true response whose url
is longer than the 256-byte output buffer. -/
def c3doc : JDoc :=
  [("update", JVal.jbool true), ("url", JVal.jstr c3url),
   ("version", JVal.jstr "1.1.0"), ("checksum", JVal.jstr "deadbeef"),
   ("protocol_version", JVal.jstr "01.00"), ("notes", JVal.jstr "fix"),
   ("server_token", JVal.jstr c3tok), ("timestamp", JVal.jint 1000)]

/-- Fixture for claim C3: the transport environment delivering c3doc. -/
def c3env : CheckEnv :=
  { connectOk := true, deviceId := "AA:BB:CC:DD:EE:FF", respLen := 600,
    respDoc := some c3doc }

/-- Fixture: the full happy-path response of the spec scenario A. -/
def sampleDoc : JDoc :=
  [("update", JVal.jbool true), ("url", JVal.jstr sampleUrl),
   ("version", JVal.jstr "1.1.0"), ("checksum", JVal.jstr "deadbeef"),
   ("protocol_version", JVal.jstr "01.00"), ("notes", JVal.jstr "fix"),
   ("server_token", JVal.jstr sampleTok), ("timestamp", JVal.jint 1000)]

/-- Fixture: the transport environment delivering sampleDoc. -/
def sampleEnv : CheckEnv :=
  { connectOk := true, deviceId := "AA:BB:CC:DD:EE:FF", respLen := 250,
    respDoc := some sampleDoc }

/-- Fixture for claim C4: a server-declared error response. -/
def c4doc : JDoc := [("error", JVal.jstr "device not recognized")]

/-- Fixture for claim C4: the transport environment delivering c4doc. -/
def c4env : CheckEnv :=
  { connectOk := true, deviceId := "AA:BB:CC:DD:EE:FF", respLen := 40,
    respDoc := some c4doc }

/-- Fixture for claim C5: an environment whose device identity string is
long enough to push the request body to the 1024-byte bound. -/
def c5aenv : CheckEnv :=
  { connectOk := true, deviceId := String.mk (List.replicate 1100 ('m')), respLen := 40,
    respDoc := some sampleDoc }

/-- Fixture for claim C5: an environment whose response read fills the
buffer to capacity minus one. -/
def c5benv : CheckEnv :=
  { connectOk := true, deviceId := "AA:BB:CC:DD:EE:FF", respLen := 1023,
    respDoc := some sampleDoc }

/-- Fixture for claim C10: a trusted-prefix url long enough to push the
canonical message past the 512-byte buffer. -/
def c10url : String := "https://www.pleasedontcode.com/" ++ String.mk (List.replicate 600 ('a'))

/-- Fixture for claim C10: an update response carrying the oversized url. -/
def c10doc : JDoc :=
  [("update", JVal.jbool true), ("url", JVal.jstr c10url),
   ("version", JVal.jstr "1.1.0"), ("checksum", JVal.jstr "deadbeef"),
   ("protocol_version", JVal.jstr "01.00"), ("notes", JVal.jstr "fix"),
   ("server_token", JVal.jstr "deadbeef"), ("timestamp", JVal.jint 1000)]

/-- Fixture for claim C10: the transport environment delivering c10doc. -/
def c10env : CheckEnv :=
  { connectOk := true, deviceId := "AA:BB:CC:DD:EE:FF", respLen := 900,
    respDoc := some c10doc }

/-- Fixture: the state the POTA constructor establishes (POTA.cpp 44-50). -/
def initialConfig : POTAConfig :=
  { client := false, deviceType := "", firmwareVersion := "", authToken := "",
    serverSecret := "" }

/-- Fixture for claim C8: a response whose fields are wrongly typed or
missing altogether. -/
def c8doc : JDoc :=
  [("update", JVal.jstr "yes"), ("url", JVal.jint 5),
   ("timestamp", JVal.jstr "99"), ("notes", JVal.jnull)]

/-- The digest of sha256 is always exactly 32 bytes. -/
theorem sha256_length (msg : List Nat) : (sha256 msg).length = 32 := by
  simp [sha256, wordBytes]

/-- The digest of hmacSha256 is always exactly 32 bytes. -/
theorem hmacSha256_length (key msg : List Nat) : (hmacSha256 key msg).length = 32 := by
  simp [hmacSha256, sha256_length]

/-- Every character hexDigit produces is one of the sixteen lowercase hex
characters. -/
theorem hexDigit_mem (n : Nat) : hexDigit n ∈ hexChars := by
  have hlt : n &&& 15 < 16 := Nat.lt_succ_of_le Nat.and_le_right
  have hall : ∀ i : Fin 16, hexChars.getD i.val ('0') ∈ hexChars := by decide
  simpa [hexDigit] using hall ⟨n &&& 15, hlt⟩

/-- Hex encoding doubles the length of the byte list. -/
theorem hexEncodeList_length (bs : List Nat) : (hexEncodeList bs).length = 2 * bs.length := by
  induction bs with
  | nil => rfl
  | cons b bs ih => simp [hexEncodeList, ih]; omega

/-- Every character of a hex encoding is a lowercase hex character. -/
theorem hexEncodeList_mem {c : Char} {bs : List Nat} (h : c ∈ hexEncodeList bs) :
    c ∈ hexChars := by
  induction bs with
  | nil => simp [hexEncodeList] at h
  | cons b bs ih =>
    simp only [hexEncodeList, List.mem_cons] at h
    rcases h with h | h | h
    · exact h ▸ hexDigit_mem (b >>> 4)
    · exact h ▸ hexDigit_mem b
    · exact ih h

/-- A string has positive strlen exactly when it is not the empty string. -/
theorem strlen_pos_iff (s : String) : strlen s > 0 ↔ s ≠ "" := by
  constructor
  · intro h he
    rw [he] at h
    simp [strlen] at h
  · intro h
    cases s with
    | mk data =>
      cases data with
      | nil => exact absurd rfl h
      | cons c cs => simp [strlen, String.length]

/-- When the canonical message stays under the 512-byte buffer,
generateServerToken succeeds and produces the expected HMAC hex token. -/
theorem generateServerToken_ok (f : RespFields) (secret : String)
    (h : strlen (coreMessage f) < 512) :
    generateServerToken f.update (some f.version) (some f.url) (some f.checksum)
      (some f.protocolVersion) (some f.notes) (some (toString f.timestampValue))
      (some secret) 65 = (POTAError.SUCCESS, some (expectedTokenOf secret f)) := by
  have h2 : ¬ strlen (serverTokenMessage f.update (some f.version) (some f.url) (some f.checksum)
      (some f.protocolVersion) (some f.notes) (some (toString f.timestampValue))) ≥ 512 := by
    simpa [coreMessage] using Nat.not_le.mpr h
  simp [generateServerToken, expectedTokenOf, coreMessage, h2]

/-- When the canonical message reaches the 512-byte buffer capacity,
generateServerToken fails with TOKEN_GENERATION_FAILED and writes no token. -/
theorem generateServerToken_fail (f : RespFields) (secret : String)
    (h : strlen (coreMessage f) ≥ 512) :
    generateServerToken f.update (some f.version) (some f.url) (some f.checksum)
      (some f.protocolVersion) (some f.notes) (some (toString f.timestampValue))
      (some secret) 65 = (POTAError.TOKEN_GENERATION_FAILED, none) := by
  have h2 : strlen (serverTokenMessage f.update (some f.version) (some f.url) (some f.checksum)
      (some f.protocolVersion) (some f.notes) (some (toString f.timestampValue))) ≥ 512 := by
    simpa [coreMessage] using h
  simp [generateServerToken, h2]

/-- A non-empty server error message makes checkCore return SERVER_ERROR_4XX. -/
theorem checkCore_serverError (secret : String) (f : RespFields) (n : Nat)
    (hs : f.errorMsg ≠ "") :
    checkCore secret f n = (POTAError.SERVER_ERROR_4XX, "") := by
  have h : strlen f.errorMsg > 0 := (strlen_pos_iff f.errorMsg).mpr hs
  simp [checkCore, h]

/-- With no server error and an oversized canonical message, checkCore
fails with TOKEN_GENERATION_FAILED. -/
theorem checkCore_genFail (secret : String) (f : RespFields) (n : Nat)
    (he : f.errorMsg = "") (hm : strlen (coreMessage f) ≥ 512) :
    checkCore secret f n = (POTAError.TOKEN_GENERATION_FAILED, "") := by
  simp [checkCore, he, strlen, generateServerToken_fail f secret hm]

/-- With no server error, a small canonical message and a provided token
different from the recomputed one, checkCore returns TOKEN_MISMATCH. -/
theorem checkCore_mismatch (secret : String) (f : RespFields) (n : Nat)
    (he : f.errorMsg = "") (hm : strlen (coreMessage f) < 512)
    (hne : expectedTokenOf secret f ≠ f.serverToken) :
    checkCore secret f n = (POTAError.TOKEN_MISMATCH, "") := by
  simp [checkCore, he, strlen, generateServerToken_ok f secret hm, hne]

/-- With a verified token, update set, and a url carrying the trusted
prefix, checkCore succeeds and copies the url truncated by strncpy. -/
theorem checkCore_proceed (secret : String) (f : RespFields) (n : Nat)
    (he : f.errorMsg = "") (hm : strlen (coreMessage f) < 512)
    (heq : expectedTokenOf secret f = f.serverToken)
    (hu : f.update = true)
    (hp : strncmpPre ("https://" ++ API_HOST) f.url = true) :
    checkCore secret f n = (POTAError.SUCCESS, strncpyTake f.url (n - 1)) := by
  have hg := generateServerToken_ok f secret hm
  rw [hu] at hg
  simp [checkCore, he, strlen, hg, heq, hu, hp]

/-- With a verified token but update unset or an untrusted url, checkCore
returns NO_UPDATE_AVAILABLE. -/
theorem checkCore_noUpdate (secret : String) (f : RespFields) (n : Nat)
    (he : f.errorMsg = "") (hm : strlen (coreMessage f) < 512)
    (heq : expectedTokenOf secret f = f.serverToken)
    (hno : f.update = false ∨ strncmpPre ("https://" ++ API_HOST) f.url = false) :
    checkCore secret f n = (POTAError.NO_UPDATE_AVAILABLE, "") := by
  have hg := generateServerToken_ok f secret hm
  rcases hno with hno | hno
  · rw [hno] at hg
    simp [checkCore, he, strlen, hg, heq, hno]
  · simp [checkCore, he, strlen, hg, heq, hno]

/-- checkCore only ever reports SUCCESS when the server token it was given
equals the token it recomputed from the secret and the canonical message. -/
theorem checkCore_success_token (secret : String) (f : RespFields) (n : Nat)
    (h : (checkCore secret f n).fst = POTAError.SUCCESS) :
    f.serverToken = expectedTokenOf secret f := by
  by_cases he : f.errorMsg = ""
  · by_cases hm : strlen (coreMessage f) < 512
    · by_cases heq : expectedTokenOf secret f = f.serverToken
      · exact heq.symm
      · rw [checkCore_mismatch secret f n he hm heq] at h
        exact absurd h (by decide)
    · rw [checkCore_genFail secret f n he (Nat.le_of_not_lt hm)] at h
      exact absurd h (by decide)
  · rw [checkCore_serverError secret f n he] at h
    exact absurd h (by decide)

/-- With the client set, a usable output buffer and a successful
connect, an oversized request body aborts with BUFFER_OVERFLOW_REQUEST
before any request byte is sent, with the channel closed. -/
theorem checkOTAUpdate_requestOverflow (cfg : POTAConfig) (env : CheckEnv) (outSize : Nat)
    (hc : cfg.client = true) (ho : outSize ≠ 0) (hn : env.connectOk = true)
    (hb : strlen (requestBody env.deviceId cfg.deviceType cfg.firmwareVersion cfg.authToken) ≥ 1024) :
    checkOTAUpdate cfg env outSize =
      ⟨POTAError.BUFFER_OVERFLOW_REQUEST, "", ⟨false, false, true⟩⟩ := by
  simp [checkOTAUpdate, hc, ho, hn, hb]

/-- With the request under its bound, a response read that fills the buffer
to capacity minus one aborts with BUFFER_OVERFLOW_RESPONSE without the
buffer ever reaching the JSON parser, with the channel closed. -/
theorem checkOTAUpdate_responseOverflow (cfg : POTAConfig) (env : CheckEnv) (outSize : Nat)
    (hc : cfg.client = true) (ho : outSize ≠ 0) (hn : env.connectOk = true)
    (hb : strlen (requestBody env.deviceId cfg.deviceType cfg.firmwareVersion cfg.authToken) < 1024)
    (hr : env.respLen ≥ 1023) :
    checkOTAUpdate cfg env outSize =
      ⟨POTAError.BUFFER_OVERFLOW_RESPONSE, "", ⟨true, false, true⟩⟩ := by
  have hb2 : ¬ strlen (requestBody env.deviceId cfg.deviceType cfg.firmwareVersion cfg.authToken) ≥ 1024 :=
    Nat.not_le.mpr hb
  have hr2 : min env.respLen 1023 ≥ 1023 := by omega
  simp [checkOTAUpdate, hc, ho, hn, hb2, hr2]

/-- When the guards pass and the codec parses the body, checkOTAUpdate
returns what checkCore decides, with the request sent, the parser invoked
and the channel closed. -/
theorem checkOTAUpdate_parsed (cfg : POTAConfig) (env : CheckEnv) (outSize : Nat) (doc : JDoc)
    (hc : cfg.client = true) (ho : outSize ≠ 0) (hn : env.connectOk = true)
    (hb : strlen (requestBody env.deviceId cfg.deviceType cfg.firmwareVersion cfg.authToken) < 1024)
    (hr : env.respLen < 1023) (hd : env.respDoc = some doc) :
    checkOTAUpdate cfg env outSize =
      ⟨(checkCore cfg.serverSecret (extractFields doc) outSize).fst,
       (checkCore cfg.serverSecret (extractFields doc) outSize).snd, ⟨true, true, true⟩⟩ := by
  have hb2 : ¬ strlen (requestBody env.deviceId cfg.deviceType cfg.firmwareVersion cfg.authToken) ≥ 1024 :=
    Nat.not_le.mpr hb
  have hr2 : ¬ min env.respLen 1023 ≥ 1023 := by omega
  simp [checkOTAUpdate, hc, ho, hn, hb2, hr2, hd]

/-- Hex encoding doubles the byte count, so a 32-byte digest encodes to 64
characters. -/
theorem strlen_hexEncode (bs : List Nat) : strlen (hexEncode bs) = 2 * bs.length := by
  simp [strlen, hexEncode, String.length, hexEncodeList_length]

/-- FIPS 180-4 validation anchor: the sha256 model matches the standard
digest of the string abc. -/
theorem sha256_vector_abc :
    hexEncode (sha256 (strBytes "abc")) =
      "ba7816bf8f01cfea414140de5dae2223b00361a396177a9cb410ff61f20015ad" := by decide

/-- RFC 4231 test case 2 validation anchor for the hmacSha256 model. -/
theorem hmacSha256_vector_rfc4231 :
    hexEncode (hmacSha256 (strBytes "Jefe") (strBytes "what do ya want for nothing?")) =
      "5bdcc146bf60754e6a042426089575c75a003f089d2739839dec58b964ec3843" := by decide

/-- Claim C1: for every response field tuple and every secret, the token
generateServerToken computes is exactly 64 lowercase hexadecimal
characters and equals the hex encoding of HMAC-SHA256 of the colon-joined
canonical message update, version, url, checksum, protocol version, notes
and decimal timestamp, in that fixed order, under the secret. -/
theorem claim_C1_token_canonical_hmac (update : Bool)
    (version url checksum protocolVersion notes : String) (timestamp : Int)
    (secret : String) (tok : String)
    (h : generateServerToken update (some version) (some url) (some checksum)
        (some protocolVersion) (some notes) (some (toString timestamp)) (some secret) 65
        = (POTAError.SUCCESS, some tok)) :
    tok = hexEncode (hmacSha256 (strBytes secret)
        (strBytes (canonicalMessageSpec update version url checksum protocolVersion notes timestamp)))
    ∧ strlen tok = 64 ∧ ∀ c ∈ tok.data, c ∈ hexChars := by
  by_cases hm : strlen (serverTokenMessage update (some version) (some url) (some checksum)
      (some protocolVersion) (some notes) (some (toString timestamp))) ≥ 512
  · simp [generateServerToken, hm] at h
  · simp [generateServerToken, hm] at h
    have htok : tok = hexEncode (hmacSha256 (strBytes secret)
        (strBytes (canonicalMessageSpec update version url checksum protocolVersion notes timestamp))) :=
      h.symm
    refine ⟨htok, ?_, ?_⟩
    · rw [htok, strlen_hexEncode, hmacSha256_length]
    · intro c hc
      rw [htok] at hc
      exact hexEncodeList_mem hc

/-- The precomputed token of the happy-path scenario is the expected token
of the happy-path response, evaluated once and shared by the witnesses. -/
theorem sampleTok_expected :
    expectedTokenOf sampleSecret (extractFields sampleDoc) = sampleTok := by decide

/-- Claim C1 witness: the happy-path scenario token instantiates the claim. -/
theorem claim_C1_witness :
    sampleTok = hexEncode (hmacSha256 (strBytes sampleSecret)
        (strBytes (canonicalMessageSpec true "1.1.0" sampleUrl "deadbeef" "01.00" "fix" 1000)))
    ∧ strlen sampleTok = 64 ∧ ∀ c ∈ sampleTok.data, c ∈ hexChars :=
  claim_C1_token_canonical_hmac true "1.1.0" sampleUrl "deadbeef" "01.00" "fix" 1000
    sampleSecret sampleTok
    (by rw [← sampleTok_expected]
        exact generateServerToken_ok (extractFields sampleDoc) sampleSecret (by decide))

/-- Claim C2: once a response parses, carries no server error and its
canonical message fits the token buffer, any server token that differs
from the recomputed HMAC token — the empty default for a missing field
included — makes checkOTAUpdate return TOKEN_MISMATCH, and no execution
of checkOTAUpdate returns SUCCESS unless the server token equals the
recomputed token, even when the update flag is set. -/
theorem claim_C2_unverified_rejected (cfg : POTAConfig) (env : CheckEnv) (outSize : Nat)
    (doc : JDoc)
    (hc : cfg.client = true) (ho : outSize ≠ 0) (hn : env.connectOk = true)
    (hb : strlen (requestBody env.deviceId cfg.deviceType cfg.firmwareVersion cfg.authToken) < 1024)
    (hr : env.respLen < 1023) (hd : env.respDoc = some doc)
    (he : (extractFields doc).errorMsg = "")
    (hm : strlen (coreMessage (extractFields doc)) < 512) :
    ((extractFields doc).serverToken ≠ expectedTokenOf cfg.serverSecret (extractFields doc) →
      checkOTAUpdate cfg env outSize = ⟨POTAError.TOKEN_MISMATCH, "", ⟨true, true, true⟩⟩)
    ∧ ((checkOTAUpdate cfg env outSize).err = POTAError.SUCCESS →
      (extractFields doc).serverToken = expectedTokenOf cfg.serverSecret (extractFields doc)) := by
  constructor
  · intro hne
    rw [checkOTAUpdate_parsed cfg env outSize doc hc ho hn hb hr hd,
        checkCore_mismatch cfg.serverSecret (extractFields doc) outSize he hm (Ne.symm hne)]
  · intro hs
    rw [checkOTAUpdate_parsed cfg env outSize doc hc ho hn hb hr hd] at hs
    exact checkCore_success_token cfg.serverSecret (extractFields doc) outSize hs

/-- Claim C2 witness: a response whose token field is missing, hence empty,
is rejected with TOKEN_MISMATCH. -/
theorem claim_C2_witness :
    checkOTAUpdate sampleCfg c2env 256 =
      ⟨POTAError.TOKEN_MISMATCH, "", ⟨true, true, true⟩⟩ := by
  have hlen : strlen (expectedTokenOf sampleCfg.serverSecret (extractFields c2doc)) = 64 := by
    unfold expectedTokenOf
    rw [strlen_hexEncode, hmacSha256_length]
  refine (claim_C2_unverified_rejected sampleCfg c2env 256 c2doc (by decide) (by decide)
    (by decide) (by decide) (by decide) rfl (by decide) (by decide)).1 ?_
  intro h
  rw [show (extractFields c2doc).serverToken = "" from rfl] at h
  rw [← h] at hlen
  simp [strlen] at hlen

/-- The strncpy copy of checkOTAUpdate keeps the whole url when it fits the
output buffer. -/
theorem strncpyTake_all (s : String) (n : Nat) (h : strlen s ≤ n) : strncpyTake s n = s := by
  cases s with
  | mk data => simp [strncpyTake, List.take_of_length_le, strlen, String.length] at *
               exact congrArg String.mk (List.take_of_length_le h)

/-- Claim C3 counterexample: a verified response with update set and a
trusted-prefix url makes checkOTAUpdate return SUCCESS, but with the
256-byte buffer of checkAndPerformOTA the outOTAUrl it hands over is the
strncpy truncation, not the response url, so outOTAUrl does not carry the
response url as claimed. -/
theorem claim_C3_counterexample :
    (extractFields c3doc).update = true
    ∧ strncmpPre ("https://" ++ API_HOST) (extractFields c3doc).url = true
    ∧ (checkOTAUpdate sampleCfg c3env 256).err = POTAError.SUCCESS
    ∧ (checkOTAUpdate sampleCfg c3env 256).outOTAUrl ≠ (extractFields c3doc).url := by
  have h : checkOTAUpdate sampleCfg c3env 256 =
      ⟨POTAError.SUCCESS, strncpyTake c3url 255, ⟨true, true, true⟩⟩ := by decide
  refine ⟨by decide, by decide, ?_, ?_⟩
  · rw [h]
  · rw [h]
    decide

/-- Claim C3 as amended: a parsed, token-verified response with update set
and a trusted-prefix url yields SUCCESS with outOTAUrl carrying the url
truncated by strncpy to outOTAUrlSize minus one characters — the full url
exactly when it fits the output buffer — and every other verified
response yields NO_UPDATE_AVAILABLE. -/
theorem claim_C3_amended_decision (cfg : POTAConfig) (env : CheckEnv) (outSize : Nat)
    (doc : JDoc)
    (hc : cfg.client = true) (ho : outSize ≠ 0) (hn : env.connectOk = true)
    (hb : strlen (requestBody env.deviceId cfg.deviceType cfg.firmwareVersion cfg.authToken) < 1024)
    (hr : env.respLen < 1023) (hd : env.respDoc = some doc)
    (he : (extractFields doc).errorMsg = "")
    (hm : strlen (coreMessage (extractFields doc)) < 512)
    (hv : expectedTokenOf cfg.serverSecret (extractFields doc) = (extractFields doc).serverToken) :
    ((extractFields doc).update = true →
      strncmpPre ("https://" ++ API_HOST) (extractFields doc).url = true →
      checkOTAUpdate cfg env outSize =
        ⟨POTAError.SUCCESS, strncpyTake (extractFields doc).url (outSize - 1), ⟨true, true, true⟩⟩)
    ∧ (strlen (extractFields doc).url < outSize →
        strncpyTake (extractFields doc).url (outSize - 1) = (extractFields doc).url)
    ∧ (((extractFields doc).update = false ∨
        strncmpPre ("https://" ++ API_HOST) (extractFields doc).url = false) →
      checkOTAUpdate cfg env outSize =
        ⟨POTAError.NO_UPDATE_AVAILABLE, "", ⟨true, true, true⟩⟩) := by
  refine ⟨?_, ?_, ?_⟩
  · intro hu hp
    rw [checkOTAUpdate_parsed cfg env outSize doc hc ho hn hb hr hd,
        checkCore_proceed cfg.serverSecret (extractFields doc) outSize he hm hv hu hp]
  · intro hlen
    exact strncpyTake_all _ _ (by omega)
  · intro hno
    rw [checkOTAUpdate_parsed cfg env outSize doc hc ho hn hb hr hd,
        checkCore_noUpdate cfg.serverSecret (extractFields doc) outSize he hm hv hno]

/-- Claim C3 amended witness: the happy-path scenario proceeds with the
url carried whole, since this url fits the 256-byte buffer. -/
theorem claim_C3_amended_witness :
    checkOTAUpdate sampleCfg sampleEnv 256 =
      ⟨POTAError.SUCCESS, strncpyTake (extractFields sampleDoc).url 255, ⟨true, true, true⟩⟩
    ∧ strncpyTake (extractFields sampleDoc).url 255 = (extractFields sampleDoc).url := by
  have h := claim_C3_amended_decision sampleCfg sampleEnv 256 sampleDoc (by decide) (by decide)
    (by decide) (by decide) (by decide) rfl (by decide) (by decide) sampleTok_expected
  exact ⟨h.1 (by decide) (by decide), h.2.1 (by decide)⟩

/-- When the guards pass but the codec rejects the body, checkOTAUpdate
returns JSON_PARSE_FAILED, with the channel already closed. -/
theorem checkOTAUpdate_parseFail (cfg : POTAConfig) (env : CheckEnv) (outSize : Nat)
    (hc : cfg.client = true) (ho : outSize ≠ 0) (hn : env.connectOk = true)
    (hb : strlen (requestBody env.deviceId cfg.deviceType cfg.firmwareVersion cfg.authToken) < 1024)
    (hr : env.respLen < 1023) (hd : env.respDoc = none) :
    checkOTAUpdate cfg env outSize =
      ⟨POTAError.JSON_PARSE_FAILED, "", ⟨true, true, true⟩⟩ := by
  have hb2 : ¬ strlen (requestBody env.deviceId cfg.deviceType cfg.firmwareVersion cfg.authToken) ≥ 1024 :=
    Nat.not_le.mpr hb
  have hr2 : ¬ min env.respLen 1023 ≥ 1023 := by omega
  simp [checkOTAUpdate, hc, ho, hn, hb2, hr2, hd]

/-- Claim C4: a parsed response carrying a non-empty error field makes
checkOTAUpdate return SERVER_ERROR_4XX, and the outcome is the same for
every secret and every server token value, so token generation and token
comparison play no part in it. -/
theorem claim_C4_server_error (cfg : POTAConfig) (env : CheckEnv) (outSize : Nat) (doc : JDoc)
    (hc : cfg.client = true) (ho : outSize ≠ 0) (hn : env.connectOk = true)
    (hb : strlen (requestBody env.deviceId cfg.deviceType cfg.firmwareVersion cfg.authToken) < 1024)
    (hr : env.respLen < 1023) (hd : env.respDoc = some doc)
    (herr : (extractFields doc).errorMsg ≠ "") :
    checkOTAUpdate cfg env outSize = ⟨POTAError.SERVER_ERROR_4XX, "", ⟨true, true, true⟩⟩
    ∧ ∀ secret tok, checkCore secret { extractFields doc with serverToken := tok } outSize
        = (POTAError.SERVER_ERROR_4XX, "") := by
  constructor
  · rw [checkOTAUpdate_parsed cfg env outSize doc hc ho hn hb hr hd,
        checkCore_serverError cfg.serverSecret (extractFields doc) outSize herr]
  · intro secret tok
    exact checkCore_serverError secret _ outSize herr

/-- Claim C4 witness: the scenario F error response short-circuits to
SERVER_ERROR_4XX, under any secret and any token value. -/
theorem claim_C4_witness :
    checkOTAUpdate sampleCfg c4env 256 = ⟨POTAError.SERVER_ERROR_4XX, "", ⟨true, true, true⟩⟩
    ∧ checkCore "some-other-secret" { extractFields c4doc with serverToken := "ffff" } 256
        = (POTAError.SERVER_ERROR_4XX, "") := by
  have h := claim_C4_server_error sampleCfg c4env 256 c4doc (by decide) (by decide) (by decide)
    (by decide) (by decide) rfl (by decide)
  exact ⟨h.1, h.2 "some-other-secret" "ffff"⟩

/-- Claim C5: the framing bounds abort before acting — a request
body reaching the 1024-byte capacity aborts with BUFFER_OVERFLOW_REQUEST
with no request byte sent, and a response read reaching capacity minus one
aborts with BUFFER_OVERFLOW_RESPONSE with the buffer never parsed. -/
theorem claim_C5_framing_bounds (cfg : POTAConfig) (env : CheckEnv) (outSize : Nat)
    (hc : cfg.client = true) (ho : outSize ≠ 0) (hn : env.connectOk = true) :
    (strlen (requestBody env.deviceId cfg.deviceType cfg.firmwareVersion cfg.authToken) ≥ 1024 →
      checkOTAUpdate cfg env outSize =
        ⟨POTAError.BUFFER_OVERFLOW_REQUEST, "", ⟨false, false, true⟩⟩)
    ∧ (strlen (requestBody env.deviceId cfg.deviceType cfg.firmwareVersion cfg.authToken) < 1024 →
       env.respLen ≥ 1023 →
      checkOTAUpdate cfg env outSize =
        ⟨POTAError.BUFFER_OVERFLOW_RESPONSE, "", ⟨true, false, true⟩⟩) :=
  ⟨fun hb => checkOTAUpdate_requestOverflow cfg env outSize hc ho hn hb,
   fun hb hr => checkOTAUpdate_responseOverflow cfg env outSize hc ho hn hb hr⟩

/-- Claim C5 witness: both framing bounds at concrete inputs. -/
theorem claim_C5_witness :
    checkOTAUpdate sampleCfg c5aenv 256 =
      ⟨POTAError.BUFFER_OVERFLOW_REQUEST, "", ⟨false, false, true⟩⟩
    ∧ checkOTAUpdate sampleCfg c5benv 256 =
      ⟨POTAError.BUFFER_OVERFLOW_RESPONSE, "", ⟨true, false, true⟩⟩ :=
  ⟨(claim_C5_framing_bounds sampleCfg c5aenv 256 (by decide) (by decide) (by decide)).1
      (by decide),
   (claim_C5_framing_bounds sampleCfg c5benv 256 (by decide) (by decide) (by decide)).2
      (by decide) (by decide)⟩

/-- Claim C9: once the transport connect has succeeded, every exit path of
checkOTAUpdate — both overflow aborts, parse failure, server error, token
generation failure, token mismatch, no-update and success — closes the
channel before returning. -/
theorem claim_C9_channel_closed (cfg : POTAConfig) (env : CheckEnv) (outSize : Nat)
    (hc : cfg.client = true) (ho : outSize ≠ 0) (hn : env.connectOk = true) :
    (checkOTAUpdate cfg env outSize).trace.stopped = true := by
  by_cases hb : strlen (requestBody env.deviceId cfg.deviceType cfg.firmwareVersion cfg.authToken) ≥ 1024
  · rw [checkOTAUpdate_requestOverflow cfg env outSize hc ho hn hb]
  · have hb2 : strlen (requestBody env.deviceId cfg.deviceType cfg.firmwareVersion cfg.authToken) < 1024 :=
      Nat.lt_of_not_le hb
    by_cases hr : env.respLen ≥ 1023
    · rw [checkOTAUpdate_responseOverflow cfg env outSize hc ho hn hb2 hr]
    · have hr2 : env.respLen < 1023 := Nat.lt_of_not_le hr
      cases hdoc : env.respDoc with
      | none => rw [checkOTAUpdate_parseFail cfg env outSize hc ho hn hb2 hr2 hdoc]
      | some doc => rw [checkOTAUpdate_parsed cfg env outSize doc hc ho hn hb2 hr2 hdoc]

/-- Claim C9 witness: the channel is closed on a concrete parse-failure
run. -/
theorem claim_C9_witness :
    (checkOTAUpdate sampleCfg
      { connectOk := true, deviceId := "AA:BB:CC:DD:EE:FF", respLen := 17, respDoc := none }
      256).trace.stopped = true :=
  claim_C9_channel_closed sampleCfg
    { connectOk := true, deviceId := "AA:BB:CC:DD:EE:FF", respLen := 17, respDoc := none }
    256 (by decide) (by decide) (by decide)

/-- Claim C10: a parsed, error-free response whose canonical message
occupies at least 512 bytes makes checkOTAUpdate fail with
TOKEN_GENERATION_FAILED — the same outcome for every server token value,
so no token comparison takes place — and such a response can never reach
SUCCESS. -/
theorem claim_C10_message_bound (cfg : POTAConfig) (env : CheckEnv) (outSize : Nat) (doc : JDoc)
    (hc : cfg.client = true) (ho : outSize ≠ 0) (hn : env.connectOk = true)
    (hb : strlen (requestBody env.deviceId cfg.deviceType cfg.firmwareVersion cfg.authToken) < 1024)
    (hr : env.respLen < 1023) (hd : env.respDoc = some doc)
    (he : (extractFields doc).errorMsg = "")
    (hm : strlen (coreMessage (extractFields doc)) ≥ 512) :
    checkOTAUpdate cfg env outSize = ⟨POTAError.TOKEN_GENERATION_FAILED, "", ⟨true, true, true⟩⟩
    ∧ (∀ tok, checkCore cfg.serverSecret { extractFields doc with serverToken := tok } outSize
        = (POTAError.TOKEN_GENERATION_FAILED, ""))
    ∧ (checkOTAUpdate cfg env outSize).err ≠ POTAError.SUCCESS := by
  have h1 : checkOTAUpdate cfg env outSize =
      ⟨POTAError.TOKEN_GENERATION_FAILED, "", ⟨true, true, true⟩⟩ := by
    rw [checkOTAUpdate_parsed cfg env outSize doc hc ho hn hb hr hd,
        checkCore_genFail cfg.serverSecret (extractFields doc) outSize he hm]
  refine ⟨h1, ?_, ?_⟩
  · intro tok
    exact checkCore_genFail cfg.serverSecret _ outSize he hm
  · rw [h1]
    decide

/-- Claim C10 witness: the oversized-message response fails token
generation and cannot verify. -/
theorem claim_C10_witness :
    checkOTAUpdate sampleCfg c10env 256 =
      ⟨POTAError.TOKEN_GENERATION_FAILED, "", ⟨true, true, true⟩⟩
    ∧ checkCore sampleCfg.serverSecret { extractFields c10doc with serverToken := "" } 256
        = (POTAError.TOKEN_GENERATION_FAILED, "")
    ∧ (checkOTAUpdate sampleCfg c10env 256).err ≠ POTAError.SUCCESS := by
  have h := claim_C10_message_bound sampleCfg c10env 256 c10doc (by decide) (by decide)
    (by decide) (by decide) (by decide) rfl (by decide) (by decide)
  exact ⟨h.1, h.2.1 "", h.2.2⟩

/-- Claim C6 counterexample: with valid Wi-Fi credentials and an invalid
deviceType, begin does return PARAMETER_INVALID_DEVICETYPE, but only
after Wi-Fi association was attempted — the config-field ParameterInvalid
errors of begin are not pre-flight. -/
theorem claim_C6_counterexample :
    (begin ⟨true⟩ initialConfig (some "mynet") (some "mypw") (some "") (some "1.0.0")
        (some "abc") (some "s3cr3t")).err = POTAError.PARAMETER_INVALID_DEVICETYPE
    ∧ (begin ⟨true⟩ initialConfig (some "mynet") (some "mypw") (some "") (some "1.0.0")
        (some "abc") (some "s3cr3t")).wifiAttempted = true := by decide

/-- Claim C6 as amended: begin validates in the fixed order ssid, password,
deviceType, firmwareVersion, authToken, serverSecret, each config field
for non-null, non-empty and length strictly below its capacity, the first
failing field determining the distinct error; the ssid and password errors
are pre-flight, while the four config-field errors are produced only after
Wi-Fi association has been attempted and has succeeded. -/
theorem claim_C6_amended_validation (env : WifiEnv) (cfg : POTAConfig)
    (ssid password dt fw tok sec : Option String) :
    (nullOrEmpty ssid = true →
      begin env cfg ssid password dt fw tok sec = ⟨POTAError.PARAMETER_INVALID_SSID, cfg, false⟩)
    ∧ (nullOrEmpty ssid = false → nullOrEmpty password = true →
      begin env cfg ssid password dt fw tok sec = ⟨POTAError.PARAMETER_INVALID_PASSWORD, cfg, false⟩)
    ∧ (nullOrEmpty ssid = false → nullOrEmpty password = false → env.associates = true →
       ((argBad dt 32 = true →
          begin env cfg ssid password dt fw tok sec =
            ⟨POTAError.PARAMETER_INVALID_DEVICETYPE, cfg, true⟩)
        ∧ (argBad dt 32 = false → argBad fw 32 = true →
          begin env cfg ssid password dt fw tok sec =
            ⟨POTAError.PARAMETER_INVALID_FWVERSION, cfg, true⟩)
        ∧ (argBad dt 32 = false → argBad fw 32 = false → argBad tok 64 = true →
          begin env cfg ssid password dt fw tok sec =
            ⟨POTAError.PARAMETER_INVALID_AUTHTOKEN, cfg, true⟩)
        ∧ (argBad dt 32 = false → argBad fw 32 = false → argBad tok 64 = false →
            argBad sec 65 = true →
          begin env cfg ssid password dt fw tok sec =
            ⟨POTAError.PARAMETER_INVALID_SECRET, cfg, true⟩))) := by
  refine ⟨?_, ?_, ?_⟩
  · intro hs
    simp [begin, hs]
  · intro hs hp
    simp [begin, hs, hp]
  · intro hs hp ha
    have ha2 : ¬ env.associates = false := by simp [ha]
    refine ⟨?_, ?_, ?_, ?_⟩
    · intro h1
      simp [begin, beginClient, hs, hp, ha2, h1]
    · intro h1 h2
      simp [begin, beginClient, hs, hp, ha2, h1, h2]
    · intro h1 h2 h3
      simp [begin, beginClient, hs, hp, ha2, h1, h2, h3]
    · intro h1 h2 h3 h4
      simp [begin, beginClient, hs, hp, ha2, h1, h2, h3, h4]

/-- Claim C6 amended witness: a missing ssid fails pre-flight, and an
over-capacity deviceType fails with its distinct error after Wi-Fi
association. -/
theorem claim_C6_amended_witness :
    begin ⟨true⟩ initialConfig none (some "mypw") (some "sensor1") (some "1.0.0")
        (some "abc") (some "s3cr3t")
      = ⟨POTAError.PARAMETER_INVALID_SSID, initialConfig, false⟩
    ∧ begin ⟨true⟩ initialConfig (some "mynet") (some "mypw")
        (some (String.mk (List.replicate 32 ('d')))) (some "1.0.0") (some "abc") (some "s3cr3t")
      = ⟨POTAError.PARAMETER_INVALID_DEVICETYPE, initialConfig, true⟩ :=
  ⟨(claim_C6_amended_validation ⟨true⟩ initialConfig none (some "mypw") (some "sensor1")
      (some "1.0.0") (some "abc") (some "s3cr3t")).1 (by decide),
   ((claim_C6_amended_validation ⟨true⟩ initialConfig (some "mynet") (some "mypw")
      (some (String.mk (List.replicate 32 ('d')))) (some "1.0.0") (some "abc")
      (some "s3cr3t")).2.2 (by decide) (by decide) (by decide)).1 (by decide)⟩

/-- Claim C7: when any of the four config fields fails validation, neither
beginClient nor begin modifies the stored configuration — the client
pointer and the four fields keep their previous values. -/
theorem claim_C7_atomic_commit (cfg : POTAConfig) (dt fw tok sec : Option String)
    (h : argBad dt 32 = true ∨ argBad fw 32 = true ∨ argBad tok 64 = true ∨
         argBad sec 65 = true) :
    (beginClient cfg dt fw tok sec).snd = cfg
    ∧ ∀ env ssid password, (begin env cfg ssid password dt fw tok sec).cfg = cfg := by
  have hbc : (beginClient cfg dt fw tok sec).snd = cfg := by
    by_cases h1 : argBad dt 32 = true
    · simp [beginClient, h1]
    · by_cases h2 : argBad fw 32 = true
      · simp [beginClient, h1, h2]
      · by_cases h3 : argBad tok 64 = true
        · simp [beginClient, h1, h2, h3]
        · have h4 : argBad sec 65 = true := by
            rcases h with h | h | h | h
            · exact absurd h h1
            · exact absurd h h2
            · exact absurd h h3
            · exact h
          simp [beginClient, h1, h2, h3, h4]
  refine ⟨hbc, ?_⟩
  intro env ssid password
  by_cases hs : nullOrEmpty ssid = true
  · simp [begin, hs]
  · by_cases hp : nullOrEmpty password = true
    · simp [begin, hs, hp]
    · by_cases ha : env.associates = false
      · simp [begin, hs, hp, ha]
      · simpa [begin, hs, hp, ha] using hbc

/-- Claim C7 witness: an over-capacity serverSecret leaves the previously
committed configuration untouched, through beginClient and through begin. -/
theorem claim_C7_witness :
    (beginClient sampleCfg (some "sensor2") (some "2.0.0") (some "xyz")
        (some (String.mk (List.replicate 65 ('s'))))).snd = sampleCfg
    ∧ (begin ⟨true⟩ sampleCfg (some "mynet") (some "mypw") (some "sensor2") (some "2.0.0")
        (some "xyz") (some (String.mk (List.replicate 65 ('s'))))).cfg = sampleCfg := by
  have h := claim_C7_atomic_commit sampleCfg (some "sensor2") (some "2.0.0") (some "xyz")
    (some (String.mk (List.replicate 65 ('s')))) (by decide)
  exact ⟨h.1, h.2 ⟨true⟩ (some "mynet") (some "mypw")⟩

/-- A missing or non-boolean field makes the boolean accessor return its
default. -/
theorem jboolOr_default (doc : JDoc) (key : String) (d : Bool)
    (h : noBoolAt doc key = true) : jboolOr doc key d = d := by
  unfold noBoolAt at h
  unfold jboolOr
  cases hg : jget doc key with
  | none => rfl
  | some v => cases v <;> simp_all

/-- A missing or non-string field makes the string accessor return its
default. -/
theorem jstrOr_default (doc : JDoc) (key : String) (d : String)
    (h : noStrAt doc key = true) : jstrOr doc key d = d := by
  unfold noStrAt at h
  unfold jstrOr
  cases hg : jget doc key with
  | none => rfl
  | some v => cases v <;> simp_all

/-- A missing or non-integer field makes the integer accessor return its
default. -/
theorem jintOr_default (doc : JDoc) (key : String) (d : Int)
    (h : noIntAt doc key = true) : jintOr doc key d = d := by
  unfold noIntAt at h
  unfold jintOr
  cases hg : jget doc key with
  | none => rfl
  | some v => cases v <;> simp_all

/-- Claim C8: response parsing is default-tolerant — for every parsed
object, a missing or wrongly-typed update field is read as false, each
missing or wrongly-typed string field as the empty string, and a missing
or wrongly-typed timestamp as 0, the extraction the rest of the check
then runs on. -/
theorem claim_C8_default_tolerance (doc : JDoc) :
    (noBoolAt doc "update" = true → (extractFields doc).update = false)
    ∧ (noStrAt doc "url" = true → (extractFields doc).url = "")
    ∧ (noStrAt doc "version" = true → (extractFields doc).version = "")
    ∧ (noStrAt doc "checksum" = true → (extractFields doc).checksum = "")
    ∧ (noStrAt doc "protocol_version" = true → (extractFields doc).protocolVersion = "")
    ∧ (noStrAt doc "notes" = true → (extractFields doc).notes = "")
    ∧ (noStrAt doc "server_token" = true → (extractFields doc).serverToken = "")
    ∧ (noStrAt doc "error" = true → (extractFields doc).errorMsg = "")
    ∧ (noIntAt doc "timestamp" = true → (extractFields doc).timestampValue = 0) :=
  ⟨fun h => jboolOr_default doc "update" false h,
   fun h => jstrOr_default doc "url" "" h,
   fun h => jstrOr_default doc "version" "" h,
   fun h => jstrOr_default doc "checksum" "" h,
   fun h => jstrOr_default doc "protocol_version" "" h,
   fun h => jstrOr_default doc "notes" "" h,
   fun h => jstrOr_default doc "server_token" "" h,
   fun h => jstrOr_default doc "error" "" h,
   fun h => jintOr_default doc "timestamp" 0 h⟩

/-- Claim C8 witness: the wrongly-typed fixture extracts to the defaults. -/
theorem claim_C8_witness :
    (extractFields c8doc).update = false
    ∧ (extractFields c8doc).url = ""
    ∧ (extractFields c8doc).notes = ""
    ∧ (extractFields c8doc).serverToken = ""
    ∧ (extractFields c8doc).timestampValue = 0 := by
  have h := claim_C8_default_tolerance c8doc
  exact ⟨h.1 (by decide), h.2.1 (by decide), h.2.2.2.2.2.1 (by decide),
    h.2.2.2.2.2.2.1 (by decide), h.2.2.2.2.2.2.2.2 (by decide)⟩
